import Mathlib

/-!
Shallow embedding of the ticket store and its domain model
(`src/data.rs` and `src/store.rs` of the Ticket API repository).

Rust strings are modelled as `List Char`; `String::len` (a byte count)
becomes `rustLen`, summing the UTF-8 size of each character, and
`str::trim` becomes `rustTrim`, dropping Unicode-whitespace characters
from both ends.  The random 128-bit `TicketId` is modelled as a `Nat`
supplied to `addTicket` as the freshly drawn identifier.  The
`HashMap<TicketId, Arc<RwLock<Ticket>>>` becomes an association list;
the in-place mutation performed through a ticket's `RwLock` becomes
`insertTicket`, which replaces the value stored at the key.
-/

/-- Decidable equality for `Except`, so that concrete runs of the
fallible operations can be checked by `decide`. -/
instance {ε α : Type} [DecidableEq ε] [DecidableEq α] :
    DecidableEq (Except ε α) := fun
  | .ok a, .ok b =>
      if h : a = b then .isTrue (by rw [h])
      else .isFalse (by intro hc; cases hc; exact h rfl)
  | .error a, .error b =>
      if h : a = b then .isTrue (by rw [h])
      else .isFalse (by intro hc; cases hc; exact h rfl)
  | .ok _, .error _ => .isFalse (by intro hc; cases hc)
  | .error _, .ok _ => .isFalse (by intro hc; cases hc)

namespace TicketApi

/-- Characters with the Unicode `White_Space` property, as tested by
Rust's `char::is_whitespace` (used by `str::trim`). -/
def isRustWhitespace (c : Char) : Bool :=
  (0x09 ≤ c.toNat && c.toNat ≤ 0x0D) || c.toNat == 0x20 ||
    c.toNat == 0x85 || c.toNat == 0xA0 || c.toNat == 0x1680 ||
    (0x2000 ≤ c.toNat && c.toNat ≤ 0x200A) ||
    c.toNat == 0x2028 || c.toNat == 0x2029 || c.toNat == 0x202F ||
    c.toNat == 0x205F || c.toNat == 0x3000

/-- `str::trim`: remove leading and trailing whitespace characters. -/
def rustTrim (s : List Char) : List Char :=
  ((s.dropWhile isRustWhitespace).reverse.dropWhile isRustWhitespace).reverse

/-- `String::len`: the length of the string in bytes (UTF-8). -/
def rustLen (s : List Char) : Nat :=
  (s.map Char.utf8Size).sum

/-- `TicketTitle` (`data.rs`): newtype over the raw string. -/
structure TicketTitle where
  val : List Char
deriving DecidableEq, Repr

/-- `TicketTitle::new` (`data.rs` lines 37-45): reject when the trimmed
string is empty, then when the byte length exceeds 100; otherwise keep
the original string. -/
def TicketTitle.new (title : List Char) : Except String TicketTitle :=
  if (rustTrim title).isEmpty then
    .error "Title cannot be empty"
  else if rustLen title > 100 then
    .error "Title cannot be longer than 100 characters"
  else
    .ok ⟨title⟩

/-- `TicketDescription` (`data.rs`): newtype over the raw string. -/
structure TicketDescription where
  val : List Char
deriving DecidableEq, Repr

/-- `TicketDescription::new` (`data.rs` lines 54-59): reject when the
byte length exceeds 1000; otherwise keep the original string. -/
def TicketDescription.new (description : List Char) :
    Except String TicketDescription :=
  if rustLen description > 1000 then
    .error "Description cannot be longer than 1000 characters"
  else
    .ok ⟨description⟩

/-- `Status` (`data.rs`): the closed workflow enumeration. -/
inductive Status where
  | ToDo
  | InProgress
  | Done
deriving DecidableEq, Repr

/-- `Ticket` (`data.rs`): the persisted entity. -/
structure Ticket where
  id : Nat
  title : TicketTitle
  description : TicketDescription
  status : Status
deriving DecidableEq, Repr

/-- `TicketDraft` (`data.rs`): validated title/description pair used to
create a ticket. -/
structure TicketDraft where
  title : TicketTitle
  description : TicketDescription
deriving DecidableEq, Repr

/-- `PatchTicketRequest` (`data.rs`): all fields optional; raw strings
for title and description, an already-structurally-valid status. -/
structure PatchTicketRequest where
  title : Option (List Char)
  description : Option (List Char)
  status : Option Status
deriving DecidableEq, Repr

/-- `StoreError` (`store.rs`). -/
inductive StoreError where
  | TicketNotFound (id : Nat)
  | InvalidField (msg : String)
deriving DecidableEq, Repr

/-- The state of the `TicketStore`: the `id → ticket` mapping, as an
association list. -/
abbrev Store := List (Nat × Ticket)

/-- `TicketStore::new`: the empty mapping. -/
def emptyStore : Store := []

/-- `HashMap::get`: the first binding of the key, if any. -/
def lookupTicket : Store → Nat → Option Ticket
  | [], _ => none
  | (k, t) :: rest, id => if k = id then some t else lookupTicket rest id

/-- Write a ticket at a key: replaces the first binding when the key is
present (a `HashMap::insert`, or the in-place write through the
ticket's `RwLock`), appends a fresh binding otherwise. -/
def insertTicket : Store → Nat → Ticket → Store
  | [], id, t => [(id, t)]
  | (k, u) :: rest, id, t =>
      if k = id then (id, t) :: rest else (k, u) :: insertTicket rest id t

/-- `TicketStore::add_ticket` (`store.rs` lines 47-61): build the ticket
with status `ToDo` from the draft and the freshly drawn id, insert it,
return the id.  `freshId` stands for the random `TicketId::new()`. -/
def addTicket (s : Store) (freshId : Nat) (draft : TicketDraft) :
    Nat × Store :=
  let ticket : Ticket :=
    { id := freshId
      title := draft.title
      description := draft.description
      status := Status.ToDo }
  (freshId, insertTicket s freshId ticket)

/-- `TicketStore::get_ticket` (`store.rs` lines 72-81): look the slot up
and return a copy, or `TicketNotFound`. -/
def getTicket (s : Store) (id : Nat) : Except StoreError Ticket :=
  match lookupTicket s id with
  | some t => .ok t
  | none => .error (.TicketNotFound id)

/-- The status step of `patch_ticket` (`store.rs` lines 121-125) and the
successful return of the mutated copy; `t2` is the live ticket after the
title and description writes. -/
def patchStatus (s : Store) (id : Nat) (patch : PatchTicketRequest)
    (t2 : Ticket) : Except StoreError Ticket × Store :=
  match patch.status with
  | some status =>
      (.ok { t2 with status := status },
        insertTicket s id { t2 with status := status })
  | none => (.ok t2, insertTicket s id t2)

/-- The description step of `patch_ticket` (`store.rs` lines 112-119):
`t1` is the live ticket after the title write, already visible in the
slot when this step fails. -/
def patchDescription (s : Store) (id : Nat) (patch : PatchTicketRequest)
    (t1 : Ticket) : Except StoreError Ticket × Store :=
  match patch.description with
  | some descriptionStr =>
    match TicketDescription.new descriptionStr with
    | .error e =>
        (.error (.InvalidField ("description: " ++ e)),
          insertTicket s id t1)
    | .ok description =>
        patchStatus s id patch { t1 with description := description }
  | none => patchStatus s id patch t1

/-- `TicketStore::patch_ticket` (`store.rs` lines 94-129).  Fields are
applied in order — title, then description, then status — each write
landing directly on the live ticket; a validation failure returns
`InvalidField` at once, leaving earlier writes of the same call
committed.  The returned pair is (the call's result, the store state
when the call returns). -/
def patchTicket (s : Store) (id : Nat) (patch : PatchTicketRequest) :
    Except StoreError Ticket × Store :=
  match lookupTicket s id with
  | none => (.error (.TicketNotFound id), s)
  | some t0 =>
    match patch.title with
    | some titleStr =>
      match TicketTitle.new titleStr with
      | .error e => (.error (.InvalidField ("title: " ++ e)), s)
      | .ok title => patchDescription s id patch { t0 with title := title }
    | none => patchDescription s id patch t0

/-- `TicketStore::list_tickets` (`store.rs` lines 137-147): a copy of
every ticket, in the mapping's iteration order. -/
def listTickets (s : Store) : List Ticket :=
  s.map (fun p => p.2)

/-- A title value satisfying the validation rules of `TicketTitle::new`. -/
def validTitle (t : TicketTitle) : Prop :=
  rustTrim t.val ≠ [] ∧ rustLen t.val ≤ 100

/-- A description value satisfying the validation rule of
`TicketDescription::new`. -/
def validDescription (d : TicketDescription) : Prop :=
  rustLen d.val ≤ 1000

/-- A ticket whose title and description both satisfy their validation
rules. -/
def validTicket (t : Ticket) : Prop :=
  validTitle t.title ∧ validDescription t.description

/-- A draft whose fields both satisfy their validation rules (drafts are
pre-validated at the caller boundary before `add_ticket`). -/
def validDraft (d : TicketDraft) : Prop :=
  validTitle d.title ∧ validDescription d.description

/-- Every ticket stored in the mapping is valid. -/
def storeValid (s : Store) : Prop :=
  ∀ p ∈ s, validTicket p.2

instance (t : TicketTitle) : Decidable (validTitle t) := by
  unfold validTitle
  infer_instance

instance (d : TicketDescription) : Decidable (validDescription d) := by
  unfold validDescription
  infer_instance

instance (t : Ticket) : Decidable (validTicket t) := by
  unfold validTicket
  infer_instance

instance (d : TicketDraft) : Decidable (validDraft d) := by
  unfold validDraft
  infer_instance

/-- A store operation, as invoked by the transport layer. -/
inductive StoreOp where
  | add (freshId : Nat) (draft : TicketDraft)
  | patch (id : Nat) (request : PatchTicketRequest)
  | get (id : Nat)
  | list
deriving DecidableEq, Repr

/-- The store state after one operation (`get_ticket` and
`list_tickets` only read). -/
def applyOp (s : Store) : StoreOp → Store
  | .add freshId draft => (addTicket s freshId draft).2
  | .patch id request => (patchTicket s id request).2
  | .get _ => s
  | .list => s

/-- The store state after a sequence of operations. -/
def runOps : Store → List StoreOp → Store
  | s, [] => s
  | s, op :: rest => runOps (applyOp s op) rest

/-- A concrete operation sequence: an add, a patch that fails on its
description after committing its title, a get, and a list. -/
def sampleOps : List StoreOp :=
  [StoreOp.add 0 ⟨⟨['A']⟩, ⟨['B']⟩⟩,
   StoreOp.patch 0 ⟨some ['C'], some (List.replicate 1001 'x'), none⟩,
   StoreOp.get 0,
   StoreOp.list]

/-! ### Supporting lemmas -/

theorem lookup_insert_self (s : Store) (id : Nat) (t : Ticket) :
    lookupTicket (insertTicket s id t) id = some t := by
  induction s with
  | nil => simp [insertTicket, lookupTicket]
  | cons p rest ih =>
      obtain ⟨k, u⟩ := p
      by_cases hk : k = id
      · simp [insertTicket, lookupTicket, hk]
      · simp [insertTicket, lookupTicket, hk, ih]

theorem insert_lookup_self {s : Store} {id : Nat} {t : Ticket}
    (h : lookupTicket s id = some t) : insertTicket s id t = s := by
  induction s with
  | nil => simp [lookupTicket] at h
  | cons p rest ih =>
      obtain ⟨k, u⟩ := p
      by_cases hk : k = id
      · subst hk
        simp [lookupTicket] at h
        simp [insertTicket, h]
      · simp [lookupTicket, hk] at h
        simp [insertTicket, hk, ih h]

theorem lookup_mem {s : Store} {id : Nat} {t : Ticket}
    (h : lookupTicket s id = some t) : (id, t) ∈ s := by
  induction s with
  | nil => simp [lookupTicket] at h
  | cons p rest ih =>
      obtain ⟨k, u⟩ := p
      by_cases hk : k = id
      · subst hk
        simp [lookupTicket] at h
        simp [h]
      · simp [lookupTicket, hk] at h
        exact List.mem_cons_of_mem _ (ih h)

theorem storeValid_insert {s : Store} {id : Nat} {t : Ticket}
    (hs : storeValid s) (ht : validTicket t) :
    storeValid (insertTicket s id t) := by
  induction s with
  | nil =>
      intro p hp
      simp [insertTicket] at hp
      simp [hp, ht]
  | cons q rest ih =>
      obtain ⟨k, u⟩ := q
      have hrest : storeValid rest := fun p hp => hs p (List.mem_cons_of_mem _ hp)
      intro p hp
      by_cases hk : k = id
      · simp [insertTicket, hk] at hp
        rcases hp with hp | hp
        · simp [hp, ht]
        · exact hs p (List.mem_cons_of_mem _ hp)
      · simp [insertTicket, hk] at hp
        rcases hp with hp | hp
        · exact hs p (by simp [hp])
        · exact ih hrest p hp

theorem title_new_ok {str : List Char} {t : TicketTitle}
    (h : TicketTitle.new str = .ok t) :
    t.val = str ∧ rustTrim str ≠ [] ∧ rustLen str ≤ 100 := by
  unfold TicketTitle.new at h
  by_cases h1 : (rustTrim str).isEmpty
  · simp [h1] at h
  · by_cases h2 : rustLen str > 100
    · simp [h1, h2] at h
    · simp [h1, h2] at h
      refine ⟨by simp [← h], ?_, by omega⟩
      simpa using h1

theorem description_new_ok {str : List Char} {d : TicketDescription}
    (h : TicketDescription.new str = .ok d) :
    d.val = str ∧ rustLen str ≤ 1000 := by
  unfold TicketDescription.new at h
  by_cases h1 : rustLen str > 1000
  · simp [h1] at h
  · simp [h1] at h
    exact ⟨by simp [← h], by omega⟩

theorem patchStatus_none {s : Store} {id : Nat} {p : PatchTicketRequest}
    {t2 : Ticket} (hst : p.status = none) :
    patchStatus s id p t2 = (.ok t2, insertTicket s id t2) := by
  unfold patchStatus
  simp only [hst]

theorem patchStatus_some {s : Store} {id : Nat} {p : PatchTicketRequest}
    {t2 : Ticket} {st : Status} (hst : p.status = some st) :
    patchStatus s id p t2 =
      (.ok { t2 with status := st }, insertTicket s id { t2 with status := st }) := by
  unfold patchStatus
  simp only [hst]

theorem patchDescription_none {s : Store} {id : Nat}
    {p : PatchTicketRequest} {t1 : Ticket} (hd : p.description = none) :
    patchDescription s id p t1 = patchStatus s id p t1 := by
  unfold patchDescription
  simp only [hd]

theorem patchDescription_some_ok {s : Store} {id : Nat}
    {p : PatchTicketRequest} {t1 : Ticket} {str : List Char}
    {d : TicketDescription} (hd : p.description = some str)
    (hnew : TicketDescription.new str = .ok d) :
    patchDescription s id p t1 =
      patchStatus s id p { t1 with description := d } := by
  unfold patchDescription
  simp only [hd, hnew]

theorem patchDescription_some_error {s : Store} {id : Nat}
    {p : PatchTicketRequest} {t1 : Ticket} {str : List Char} {e : String}
    (hd : p.description = some str)
    (hnew : TicketDescription.new str = .error e) :
    patchDescription s id p t1 =
      (.error (.InvalidField ("description: " ++ e)), insertTicket s id t1) := by
  unfold patchDescription
  simp only [hd, hnew]

theorem patchTicket_lookup_none {s : Store} {id : Nat}
    {p : PatchTicketRequest} (hl : lookupTicket s id = none) :
    patchTicket s id p = (.error (.TicketNotFound id), s) := by
  unfold patchTicket
  simp only [hl]

theorem patchTicket_title_none {s : Store} {id : Nat}
    {p : PatchTicketRequest} {t0 : Ticket}
    (hl : lookupTicket s id = some t0) (hpt : p.title = none) :
    patchTicket s id p = patchDescription s id p t0 := by
  unfold patchTicket
  simp only [hl, hpt]

theorem patchTicket_title_ok {s : Store} {id : Nat}
    {p : PatchTicketRequest} {t0 : Ticket} {str : List Char}
    {ti : TicketTitle} (hl : lookupTicket s id = some t0)
    (hpt : p.title = some str) (hnew : TicketTitle.new str = .ok ti) :
    patchTicket s id p = patchDescription s id p { t0 with title := ti } := by
  unfold patchTicket
  simp only [hl, hpt, hnew]

theorem patchTicket_title_error {s : Store} {id : Nat}
    {p : PatchTicketRequest} {t0 : Ticket} {str : List Char} {e : String}
    (hl : lookupTicket s id = some t0) (hpt : p.title = some str)
    (hnew : TicketTitle.new str = .error e) :
    patchTicket s id p = (.error (.InvalidField ("title: " ++ e)), s) := by
  unfold patchTicket
  simp only [hl, hpt, hnew]

theorem patchStatus_ok {s s' : Store} {id : Nat} {p : PatchTicketRequest}
    {t2 t : Ticket} (h : patchStatus s id p t2 = (.ok t, s')) :
    s' = insertTicket s id t := by
  cases hst : p.status with
  | none =>
      rw [patchStatus_none hst] at h
      simp at h
      obtain ⟨h1, h2⟩ := h
      rw [h1] at h2
      exact h2.symm
  | some st =>
      rw [patchStatus_some hst] at h
      simp at h
      obtain ⟨h1, h2⟩ := h
      rw [h1] at h2
      exact h2.symm

theorem patchDescription_ok {s s' : Store} {id : Nat}
    {p : PatchTicketRequest} {t1 t : Ticket}
    (h : patchDescription s id p t1 = (.ok t, s')) :
    s' = insertTicket s id t := by
  cases hd : p.description with
  | none =>
      rw [patchDescription_none hd] at h
      exact patchStatus_ok h
  | some str =>
      cases hnew : TicketDescription.new str with
      | error e => rw [patchDescription_some_error hd hnew] at h; simp at h
      | ok d =>
          rw [patchDescription_some_ok hd hnew] at h
          exact patchStatus_ok h

theorem patchTicket_ok {s s' : Store} {id : Nat} {p : PatchTicketRequest}
    {t : Ticket} (h : patchTicket s id p = (.ok t, s')) :
    s' = insertTicket s id t := by
  cases hl : lookupTicket s id with
  | none => rw [patchTicket_lookup_none hl] at h; simp at h
  | some t0 =>
      cases hpt : p.title with
      | none =>
          rw [patchTicket_title_none hl hpt] at h
          exact patchDescription_ok h
      | some str =>
          cases hnew : TicketTitle.new str with
          | error e => rw [patchTicket_title_error hl hpt hnew] at h; simp at h
          | ok ti =>
              rw [patchTicket_title_ok hl hpt hnew] at h
              exact patchDescription_ok h

theorem patchStatus_valid {s : Store} {id : Nat} {p : PatchTicketRequest}
    {t2 : Ticket} (hs : storeValid s) (ht : validTicket t2) :
    storeValid (patchStatus s id p t2).2 ∧
      ∀ t s', patchStatus s id p t2 = (.ok t, s') → validTicket t := by
  cases hst : p.status with
  | none =>
      rw [patchStatus_none hst]
      refine ⟨storeValid_insert hs ht, ?_⟩
      intro t s' h
      simp at h
      rw [← h.1]
      exact ht
  | some st =>
      have ht2 : validTicket { t2 with status := st } := ht
      rw [patchStatus_some hst]
      refine ⟨storeValid_insert hs ht2, ?_⟩
      intro t s' h
      simp at h
      rw [← h.1]
      exact ht2

theorem patchDescription_valid {s : Store} {id : Nat}
    {p : PatchTicketRequest} {t1 : Ticket}
    (hs : storeValid s) (ht : validTicket t1) :
    storeValid (patchDescription s id p t1).2 ∧
      ∀ t s', patchDescription s id p t1 = (.ok t, s') → validTicket t := by
  cases hd : p.description with
  | none =>
      rw [patchDescription_none hd]
      exact patchStatus_valid hs ht
  | some str =>
      cases hnew : TicketDescription.new str with
      | error e =>
          rw [patchDescription_some_error hd hnew]
          refine ⟨storeValid_insert hs ht, ?_⟩
          intro t s' h
          simp at h
      | ok d =>
          have hd' : validDescription d := by
            obtain ⟨hv, hlen⟩ := description_new_ok hnew
            unfold validDescription
            rw [hv]
            exact hlen
          rw [patchDescription_some_ok hd hnew]
          exact patchStatus_valid hs ⟨ht.1, hd'⟩

theorem patchTicket_valid {s : Store} {id : Nat} {p : PatchTicketRequest}
    (hs : storeValid s) :
    storeValid (patchTicket s id p).2 ∧
      ∀ t s', patchTicket s id p = (.ok t, s') → validTicket t := by
  cases hl : lookupTicket s id with
  | none =>
      rw [patchTicket_lookup_none hl]
      refine ⟨hs, ?_⟩
      intro t s' h
      simp at h
  | some t0 =>
      have ht0 : validTicket t0 := hs (id, t0) (lookup_mem hl)
      cases hpt : p.title with
      | none =>
          rw [patchTicket_title_none hl hpt]
          exact patchDescription_valid hs ht0
      | some str =>
          cases hnew : TicketTitle.new str with
          | error e =>
              rw [patchTicket_title_error hl hpt hnew]
              refine ⟨hs, ?_⟩
              intro t s' h
              simp at h
          | ok ti =>
              have hti : validTitle ti := by
                obtain ⟨hv, hne, hlen⟩ := title_new_ok hnew
                unfold validTitle
                rw [hv]
                exact ⟨hne, hlen⟩
              rw [patchTicket_title_ok hl hpt hnew]
              exact patchDescription_valid hs ⟨hti, ht0.2⟩

theorem applyOp_valid {s : Store} {op : StoreOp} (hs : storeValid s)
    (hop : ∀ f d, op = .add f d → validDraft d) :
    storeValid (applyOp s op) := by
  cases op with
  | add f d =>
      have hd : validDraft d := hop f d rfl
      exact storeValid_insert hs hd
  | patch id p => exact (patchTicket_valid hs).1
  | get _ => exact hs
  | list => exact hs

theorem runOps_valid {s : Store} {ops : List StoreOp} (hs : storeValid s)
    (hops : ∀ f d, StoreOp.add f d ∈ ops → validDraft d) :
    storeValid (runOps s ops) := by
  induction ops generalizing s with
  | nil => exact hs
  | cons op rest ih =>
      have h1 : storeValid (applyOp s op) :=
        applyOp_valid hs (fun f d he => hops f d (by simp [he]))
      exact ih h1 (fun f d hm => hops f d (List.mem_cons_of_mem _ hm))

/-! ### Claims -/

set_option maxRecDepth 100000

/-- Claim C1: for every stored ticket and every patch request carrying a
valid title and a description longer than 1000 bytes, `patch_ticket`
returns `InvalidField` for the description, and afterwards the stored
ticket carries the new (patched) title while its description and status
are unchanged: the field written before the failing field stays
committed, the failing field and all later fields are not applied. -/
theorem patch_partial_commit (s : Store) (id : Nat) (t : Ticket)
    (p : PatchTicketRequest) (titleStr descStr : List Char)
    (newTitle : TicketTitle)
    (hlook : lookupTicket s id = some t)
    (hpt : p.title = some titleStr)
    (hnew : TicketTitle.new titleStr = .ok newTitle)
    (hpd : p.description = some descStr)
    (hlen : 1000 < rustLen descStr) :
    (patchTicket s id p).1 =
      .error (.InvalidField
        "description: Description cannot be longer than 1000 characters") ∧
    lookupTicket (patchTicket s id p).2 id =
      some { t with title := newTitle } := by
  have hdesc : TicketDescription.new descStr =
      .error "Description cannot be longer than 1000 characters" := by
    unfold TicketDescription.new
    rw [if_pos hlen]
  rw [patchTicket_title_ok hlook hpt hnew, patchDescription_some_error hpd hdesc]
  exact ⟨rfl, lookup_insert_self ..⟩

/-- Claim C1 witness: a stored ticket `{title := "A", description := "B"}`
patched with title `"C"` and a 1001-character description yields
`InvalidField` while the title `"C"` is committed and the description
stays `"B"`. -/
theorem patch_partial_commit_witness :
    TicketTitle.new ['C'] = .ok ⟨['C']⟩ ∧
    1000 < rustLen (List.replicate 1001 'x') ∧
    ((patchTicket [(0, ⟨0, ⟨['A']⟩, ⟨['B']⟩, Status.ToDo⟩)] 0
        ⟨some ['C'], some (List.replicate 1001 'x'), none⟩).1 =
      .error (.InvalidField
        "description: Description cannot be longer than 1000 characters") ∧
      lookupTicket (patchTicket [(0, ⟨0, ⟨['A']⟩, ⟨['B']⟩, Status.ToDo⟩)] 0
        ⟨some ['C'], some (List.replicate 1001 'x'), none⟩).2 0 =
        some ⟨0, ⟨['C']⟩, ⟨['B']⟩, Status.ToDo⟩) := by
  refine ⟨by decide, by decide, ?_⟩
  exact patch_partial_commit [(0, ⟨0, ⟨['A']⟩, ⟨['B']⟩, Status.ToDo⟩)] 0
    ⟨0, ⟨['A']⟩, ⟨['B']⟩, Status.ToDo⟩ ⟨some ['C'],
      some (List.replicate 1001 'x'), none⟩ ['C']
    (List.replicate 1001 'x') ⟨['C']⟩ (by decide) rfl (by decide) rfl
    (by decide)

/-- Claim C2 counterexample: a 101-character all-whitespace title has
byte length greater than 100, yet `TicketTitle::new` rejects it with the
empty-title error, not `TitleTooLong` — the claimed equivalence fails. -/
theorem title_tooLong_iff_counterexample :
    100 < rustLen (List.replicate 101 ' ') ∧
    TicketTitle.new (List.replicate 101 ' ') =
      .error "Title cannot be empty" ∧
    TicketTitle.new (List.replicate 101 ' ') ≠
      .error "Title cannot be longer than 100 characters" := by
  exact ⟨by decide, by decide, by decide⟩

/-- Claim C2 as amended: for every string whose trimmed form is
non-empty, `TicketTitle::new` fails with `TitleTooLong` iff the byte
length exceeds 100 (whitespace-only strings instead fail with
`EmptyTitle`, whatever their length). -/
theorem title_tooLong_iff_amended (s : List Char) (h : rustTrim s ≠ []) :
    TicketTitle.new s =
        .error "Title cannot be longer than 100 characters" ↔
      100 < rustLen s := by
  unfold TicketTitle.new
  rw [if_neg (by simpa using h)]
  by_cases hl : rustLen s > 100
  · rw [if_pos hl]
    simp [hl]
  · rw [if_neg hl]
    simp
    omega

/-- Claim C2 witness: a 101-character title of letters trims to itself
and is rejected as too long. -/
theorem title_tooLong_iff_amended_witness :
    rustTrim (List.replicate 101 'a') ≠ [] ∧
    (TicketTitle.new (List.replicate 101 'a') =
        .error "Title cannot be longer than 100 characters" ↔
      100 < rustLen (List.replicate 101 'a')) :=
  ⟨by decide, title_tooLong_iff_amended (List.replicate 101 'a') (by decide)⟩

/-- Claim C3: starting from the empty store, after any sequence of
operations whose add-drafts are pre-validated, the store only holds
valid tickets, and every ticket observable through `get_ticket`,
`list_tickets` or a successful `patch_ticket` satisfies the field
validation predicates — including sequences with patch calls that fail
partway. -/
theorem store_invariant (ops : List StoreOp)
    (hops : ∀ f d, StoreOp.add f d ∈ ops → validDraft d) :
    storeValid (runOps emptyStore ops) ∧
    (∀ id t, getTicket (runOps emptyStore ops) id = .ok t → validTicket t) ∧
    (∀ t ∈ listTickets (runOps emptyStore ops), validTicket t) ∧
    (∀ id p t s', patchTicket (runOps emptyStore ops) id p = (.ok t, s') →
      validTicket t) := by
  have hempty : storeValid emptyStore := by
    intro p hp
    simp [emptyStore] at hp
  have hs : storeValid (runOps emptyStore ops) := runOps_valid hempty hops
  refine ⟨hs, ?_, ?_, ?_⟩
  · intro id t hget
    unfold getTicket at hget
    cases hl : lookupTicket (runOps emptyStore ops) id with
    | none => rw [hl] at hget; simp at hget
    | some t0 =>
        rw [hl] at hget
        simp at hget
        rw [← hget]
        exact hs (id, t0) (lookup_mem hl)
  · intro t hmem
    unfold listTickets at hmem
    obtain ⟨⟨k, u⟩, hku, hu⟩ := List.mem_map.mp hmem
    rw [← hu]
    exact hs (k, u) hku
  · intro id p t s' h
    exact (patchTicket_valid hs).2 t s' h

/-- Claim C3 witness: a concrete add / failing patch / get / list
sequence from the empty store, with the add-draft hypothesis discharged
and the invariant obtained from the theorem. -/
theorem store_invariant_witness :
    (∀ f d, StoreOp.add f d ∈ sampleOps → validDraft d) ∧
    (storeValid (runOps emptyStore sampleOps) ∧
    (∀ id t, getTicket (runOps emptyStore sampleOps) id = .ok t →
      validTicket t) ∧
    (∀ t ∈ listTickets (runOps emptyStore sampleOps), validTicket t) ∧
    (∀ id p t s',
      patchTicket (runOps emptyStore sampleOps) id p = (.ok t, s') →
      validTicket t)) := by
  have h : ∀ f d, StoreOp.add f d ∈ sampleOps → validDraft d := by
    intro f d hm
    simp [sampleOps] at hm
    obtain ⟨rfl, rfl⟩ := hm
    decide
  exact ⟨h, store_invariant sampleOps h⟩

/-- Claim C4: `add_ticket` on a draft followed by `get_ticket` with the
returned id yields a ticket whose title and description equal the
draft's exactly and whose status is `ToDo`. -/
theorem add_get_roundtrip (s : Store) (freshId : Nat) (draft : TicketDraft) :
    getTicket (addTicket s freshId draft).2 (addTicket s freshId draft).1 =
      .ok { id := freshId, title := draft.title,
            description := draft.description, status := Status.ToDo } := by
  unfold addTicket getTicket
  simp [lookup_insert_self]

/-- Claim C5: patching a stored ticket with a request whose only present
field is a status changes exactly the status; id, title and description
are unchanged. -/
theorem patch_status_only (s : Store) (id : Nat) (t : Ticket) (st : Status)
    (h : lookupTicket s id = some t) :
    (patchTicket s id ⟨none, none, some st⟩).1 = .ok { t with status := st } ∧
    lookupTicket (patchTicket s id ⟨none, none, some st⟩).2 id =
      some { t with status := st } := by
  rw [patchTicket_title_none h rfl, patchDescription_none rfl,
    patchStatus_some rfl]
  exact ⟨rfl, lookup_insert_self ..⟩

/-- Claim C5 witness: patching only the status of a concrete stored
ticket to `InProgress`. -/
theorem patch_status_only_witness :
    lookupTicket [(0, ⟨0, ⟨['A']⟩, ⟨['B']⟩, Status.ToDo⟩)] 0 =
      some ⟨0, ⟨['A']⟩, ⟨['B']⟩, Status.ToDo⟩ ∧
    ((patchTicket [(0, ⟨0, ⟨['A']⟩, ⟨['B']⟩, Status.ToDo⟩)] 0
        ⟨none, none, some Status.InProgress⟩).1 =
      .ok ⟨0, ⟨['A']⟩, ⟨['B']⟩, Status.InProgress⟩ ∧
      lookupTicket (patchTicket [(0, ⟨0, ⟨['A']⟩, ⟨['B']⟩, Status.ToDo⟩)] 0
        ⟨none, none, some Status.InProgress⟩).2 0 =
        some ⟨0, ⟨['A']⟩, ⟨['B']⟩, Status.InProgress⟩) :=
  ⟨by decide, patch_status_only [(0, ⟨0, ⟨['A']⟩, ⟨['B']⟩, Status.ToDo⟩)] 0
    ⟨0, ⟨['A']⟩, ⟨['B']⟩, Status.ToDo⟩ Status.InProgress (by decide)⟩

/-- Claim C6: on an id not present in the store, `get_ticket` and
`patch_ticket` both return `TicketNotFound` carrying that id, and the
store state is unchanged. -/
theorem missing_id_not_found (s : Store) (id : Nat) (p : PatchTicketRequest)
    (h : lookupTicket s id = none) :
    getTicket s id = .error (.TicketNotFound id) ∧
    patchTicket s id p = (.error (.TicketNotFound id), s) := by
  constructor
  · unfold getTicket
    rw [h]
  · exact patchTicket_lookup_none h

/-- Claim C6 witness: the empty store at id 0. -/
theorem missing_id_not_found_witness :
    lookupTicket emptyStore 0 = none ∧
    (getTicket emptyStore 0 = .error (.TicketNotFound 0) ∧
      patchTicket emptyStore 0 ⟨some ['C'], none, some Status.Done⟩ =
        (.error (.TicketNotFound 0), emptyStore)) :=
  ⟨rfl, missing_id_not_found emptyStore 0
    ⟨some ['C'], none, some Status.Done⟩ rfl⟩

/-- Claim C7: for every string whose trimmed form is non-empty and whose
byte length is at most 100, `TicketTitle::new` succeeds and stores
exactly the original, untrimmed string. -/
theorem validate_title_preserves (s : List Char) (h1 : rustTrim s ≠ [])
    (h2 : rustLen s ≤ 100) : TicketTitle.new s = .ok ⟨s⟩ := by
  unfold TicketTitle.new
  rw [if_neg (by simpa using h1), if_neg (by omega)]

/-- Claim C7 witness: a title with surrounding whitespace is stored
untrimmed. -/
theorem validate_title_preserves_witness :
    rustTrim [' ', 'a', ' '] ≠ [] ∧ rustLen [' ', 'a', ' '] ≤ 100 ∧
    TicketTitle.new [' ', 'a', ' '] = .ok ⟨[' ', 'a', ' ']⟩ :=
  ⟨by decide, by decide,
    validate_title_preserves [' ', 'a', ' '] (by decide) (by decide)⟩

/-- Claim C8: `TicketDescription::new` fails with `DescriptionTooLong`
iff the byte length exceeds 1000; otherwise (in particular for a
1000-character or an empty description) it succeeds, preserving the
string. -/
theorem validate_description_spec (s : List Char) :
    (TicketDescription.new s =
        .error "Description cannot be longer than 1000 characters" ↔
      1000 < rustLen s) ∧
    (TicketDescription.new s = .ok ⟨s⟩ ↔ rustLen s ≤ 1000) := by
  unfold TicketDescription.new
  by_cases hl : rustLen s > 1000
  · rw [if_pos hl]
    refine ⟨by simp [hl], by simp; omega⟩
  · rw [if_neg hl]
    refine ⟨by simp; omega, by simp; omega⟩

/-- Claim C9: patching a stored ticket with a request in which all three
fields are absent succeeds, returns the current ticket unchanged, leaves
the store unchanged, and agrees with `get_ticket`. -/
theorem patch_empty_noop (s : Store) (id : Nat) (t : Ticket)
    (h : lookupTicket s id = some t) :
    patchTicket s id ⟨none, none, none⟩ = (.ok t, s) ∧
    getTicket s id = .ok t := by
  constructor
  · rw [patchTicket_title_none h rfl, patchDescription_none rfl,
      patchStatus_none rfl, insert_lookup_self h]
  · unfold getTicket
    rw [h]

/-- Claim C9 witness: the all-absent patch on a concrete store. -/
theorem patch_empty_noop_witness :
    lookupTicket [(0, ⟨0, ⟨['A']⟩, ⟨['B']⟩, Status.ToDo⟩)] 0 =
      some ⟨0, ⟨['A']⟩, ⟨['B']⟩, Status.ToDo⟩ ∧
    (patchTicket [(0, ⟨0, ⟨['A']⟩, ⟨['B']⟩, Status.ToDo⟩)] 0
        ⟨none, none, none⟩ =
      (.ok ⟨0, ⟨['A']⟩, ⟨['B']⟩, Status.ToDo⟩,
        [(0, ⟨0, ⟨['A']⟩, ⟨['B']⟩, Status.ToDo⟩)]) ∧
      getTicket [(0, ⟨0, ⟨['A']⟩, ⟨['B']⟩, Status.ToDo⟩)] 0 =
        .ok ⟨0, ⟨['A']⟩, ⟨['B']⟩, Status.ToDo⟩) :=
  ⟨by decide, patch_empty_noop [(0, ⟨0, ⟨['A']⟩, ⟨['B']⟩, Status.ToDo⟩)] 0
    ⟨0, ⟨['A']⟩, ⟨['B']⟩, Status.ToDo⟩ (by decide)⟩

/-- Claim C10: whenever `patch_ticket` succeeds, the ticket it returns
is the post-patch state: an immediately following `get_ticket` on the
same id returns the same value. -/
theorem patch_result_matches_get (s s' : Store) (id : Nat)
    (p : PatchTicketRequest) (t : Ticket)
    (h : patchTicket s id p = (.ok t, s')) :
    getTicket s' id = .ok t := by
  have hs' := patchTicket_ok h
  subst hs'
  unfold getTicket
  rw [lookup_insert_self]

/-- Claim C10 witness: a successful status patch on a concrete store,
followed by a `get_ticket` returning the patched value. -/
theorem patch_result_matches_get_witness :
    patchTicket [(0, ⟨0, ⟨['A']⟩, ⟨['B']⟩, Status.ToDo⟩)] 0
        ⟨none, none, some Status.Done⟩ =
      (.ok ⟨0, ⟨['A']⟩, ⟨['B']⟩, Status.Done⟩,
        [(0, ⟨0, ⟨['A']⟩, ⟨['B']⟩, Status.Done⟩)]) ∧
    getTicket [(0, ⟨0, ⟨['A']⟩, ⟨['B']⟩, Status.Done⟩)] 0 =
      .ok ⟨0, ⟨['A']⟩, ⟨['B']⟩, Status.Done⟩ :=
  ⟨by decide, patch_result_matches_get
    [(0, ⟨0, ⟨['A']⟩, ⟨['B']⟩, Status.ToDo⟩)]
    [(0, ⟨0, ⟨['A']⟩, ⟨['B']⟩, Status.Done⟩)] 0
    ⟨none, none, some Status.Done⟩
    ⟨0, ⟨['A']⟩, ⟨['B']⟩, Status.Done⟩ (by decide)⟩

end TicketApi
